import Mathlib

/-!
Verification of the POLi payment-provider plugin
(`src/pretix/plugins/poli/`), a payment gateway integration for the
pretix ticketing framework.

The development shallowly embeds the plugin's transaction-reconciliation
logic (`payment.py`), the currency gate (`is_allowed`), the GDPR
shredding routine (`shred_payment_info`), the initiate-transaction
response handling of `checkout_prepare` / `payment_prepare`, and the
pending-payment reminder task (`tasks.py`).

JSON payloads exchanged with the gateway are modelled as association
lists of string keys and simple JSON values (`JObj`), which covers every
shape the plugin actually reads (strings, booleans, nulls / absent keys).
The host framework's `OrderPayment` state machine is modelled by the
`PaymentState` enumeration with the state names used by pretix; the host
methods `confirm()` and `fail()` that the plugin calls are modelled as
setting the state to confirmed resp. failed, which is the behaviour the
plugin relies on.
-/

/-- A JSON value as far as the plugin inspects one: a string, a boolean,
or null.  A missing dictionary key is read as `null`, mirroring Python's
`dict.get` returning `None`. -/
inductive JVal where
  | null : JVal
  | str (s : String) : JVal
  | bool (b : Bool) : JVal
deriving DecidableEq, Repr

/-- A JSON object (Python dict) as an association list, preserving key
order as Python dicts do. -/
abbrev JObj := List (String × JVal)

/-- Lookup of a key in a JSON object: `some v` when present, `none` when
absent (Python `dict.get(k)` returning `None`). -/
def jlookup (o : JObj) (k : String) : Option JVal :=
  (o.find? (fun kv => kv.fst == k)).map Prod.snd

/-- Python `data.get(k)`: the value when present, `None` (modelled `null`)
when absent. -/
def jget (o : JObj) (k : String) : JVal :=
  (jlookup o k).getD JVal.null

/-- Python `data.get(k, default)`: the value when present, the given
default when the key is absent. -/
def jgetD (o : JObj) (k : String) (d : JVal) : JVal :=
  (jlookup o k).getD d

/-- Python truthiness on the JSON values we model: `None` and the empty
string and `False` are falsy; everything else is truthy. -/
def JVal.falsy : JVal → Bool
  | JVal.null => true
  | JVal.str s => s.isEmpty
  | JVal.bool b => !b

/-- Python `str(v)` on the JSON values we model, as used when a value is
interpolated into an f-string. -/
def pyStr : JVal → String
  | JVal.null => "None"
  | JVal.str s => s
  | JVal.bool true => "True"
  | JVal.bool false => "False"

/-- The payment states of the host framework's `OrderPayment` model
(`PAYMENT_STATE_CREATED`, `_PENDING`, `_CONFIRMED`, `_CANCELED`,
`_FAILED`, `_REFUNDED`). -/
inductive PaymentState where
  | created : PaymentState
  | pending : PaymentState
  | confirmed : PaymentState
  | canceled : PaymentState
  | failed : PaymentState
  | refunded : PaymentState
deriving DecidableEq, Repr

/-- The persisted `info` field of an `OrderPayment`: empty (Python falsy:
`None` or `''`), a stored JSON object, or stored text that is not valid
JSON (raises `json.JSONDecodeError` when loaded). -/
inductive PInfo where
  | empty : PInfo
  | obj (o : JObj) : PInfo
  | invalid : PInfo
deriving DecidableEq, Repr

/-- The slice of the host framework's `OrderPayment` row that the plugin
reads and writes: the payment state and the `info` JSON blob. -/
structure OrderPayment where
  state : PaymentState
  info : PInfo
deriving DecidableEq, Repr

/-- Models the host framework's `OrderPayment.confirm()` as the plugin
relies on it: the payment state becomes confirmed. -/
def OrderPayment.confirm (p : OrderPayment) : OrderPayment :=
  { p with state := PaymentState.confirmed }

/-- Models the host framework's `OrderPayment.fail(info=...)` as the
plugin relies on it: the payment state becomes failed and the given
transaction data is persisted in `info`. -/
def OrderPayment.fail (p : OrderPayment) (info : JObj) : OrderPayment :=
  { p with state := PaymentState.failed, info := PInfo.obj info }

/-- Observable side effects of `process_transaction_result`, in the order
they are performed: the `payment.info` save at the top of the function,
a call to `payment.confirm()`, a call to `payment.fail(...)`, and the
explicit save of the pending state in the `ReceiptNotReceived` branch. -/
inductive Eff where
  | saveInfo : Eff
  | confirmCalled : Eff
  | failCalled : Eff
  | savePendingState : Eff
deriving DecidableEq, Repr

/-- Embedding of `Poli.process_transaction_result` (payment.py lines
488-544).  Returns the updated payment, the boolean result, and the list
of observable side effects in order.  The host's `confirm()` is modelled
as succeeding (its exception path belongs to the host framework). -/
def process_transaction_result (payment : OrderPayment) (transaction_data : JObj) :
    OrderPayment × Bool × List Eff :=
  let transaction_status := jget transaction_data "TransactionStatusCode"
  if transaction_status.falsy then
    -- `if not transaction_status: return False` (before any write)
    (payment, false, [])
  else
    -- `payment.info = json.dumps(transaction_data); payment.save(...)`
    let payment := { payment with info := PInfo.obj transaction_data }
    if transaction_status = JVal.str "Completed" then
      if payment.state ≠ PaymentState.confirmed then
        (payment.confirm, true, [Eff.saveInfo, Eff.confirmCalled])
      else
        (payment, true, [Eff.saveInfo])
    else if transaction_status = JVal.str "Failed" then
      if payment.state ≠ PaymentState.failed ∧ payment.state ≠ PaymentState.canceled then
        (payment.fail transaction_data, false, [Eff.saveInfo, Eff.failCalled])
      else
        (payment, false, [Eff.saveInfo])
    else if transaction_status = JVal.str "Timeout" then
      if payment.state ≠ PaymentState.failed ∧ payment.state ≠ PaymentState.canceled then
        (payment.fail transaction_data, false, [Eff.saveInfo, Eff.failCalled])
      else
        (payment, false, [Eff.saveInfo])
    else if transaction_status = JVal.str "ReceiptNotReceived" then
      ({ payment with state := PaymentState.pending }, false,
        [Eff.saveInfo, Eff.savePendingState])
    else
      (payment, false, [Eff.saveInfo])

example :
    process_transaction_result ⟨PaymentState.created, PInfo.empty⟩
      [("TransactionStatusCode", JVal.str "Completed")] =
    (⟨PaymentState.confirmed, PInfo.obj [("TransactionStatusCode", JVal.str "Completed")]⟩,
      true, [Eff.saveInfo, Eff.confirmCalled]) := by decide

example :
    process_transaction_result ⟨PaymentState.created, PInfo.empty⟩
      [("TransactionRefNo", JVal.str "T1")] =
    (⟨PaymentState.created, PInfo.empty⟩, false, []) := by decide

/-- `SUPPORTED_CURRENCIES` (payment.py line 45). -/
def SUPPORTED_CURRENCIES : List String := ["NZD", "AUD"]

/-- Embedding of `Poli.is_allowed` (payment.py lines 145-149).  The host
framework's `super().is_allowed(request, total)` is opaque to the plugin
and passed in as a boolean. -/
def is_allowed (superAllowed : Bool) (currency : String) : Bool :=
  superAllowed && SUPPORTED_CURRENCIES.contains currency

/-- The allow-listed keys that `shred_payment_info` keeps, in the order
the shredded dict is built (payment.py lines 605-615). -/
def SHRED_KEYS : List String :=
  ["TransactionRefNo", "TransactionID", "TransactionStatusCode", "TransactionStatus",
    "PaymentAmount", "CurrencyCode", "EstablishedDateTime", "EndDateTime"]

/-- Embedding of `Poli.shred_payment_info` (payment.py lines 595-619).
Empty info returns immediately; info that fails to parse as JSON is
logged and left untouched; a parsed object is replaced by the fixed
allow-listed dict plus the shredded marker, each allow-listed value read
with `data.get(k)` (null when absent). -/
def shred_payment_info : PInfo → PInfo
  | PInfo.empty => PInfo.empty
  | PInfo.invalid => PInfo.invalid
  | PInfo.obj data =>
      PInfo.obj
        [("TransactionRefNo", jget data "TransactionRefNo"),
          ("TransactionID", jget data "TransactionID"),
          ("TransactionStatusCode", jget data "TransactionStatusCode"),
          ("TransactionStatus", jget data "TransactionStatus"),
          ("PaymentAmount", jget data "PaymentAmount"),
          ("CurrencyCode", jget data "CurrencyCode"),
          ("EstablishedDateTime", jget data "EstablishedDateTime"),
          ("EndDateTime", jget data "EndDateTime"),
          ("_shredded", JVal.bool true)]

/-- The keys of a stored info blob (for stating the shredding allow-list
property). -/
def PInfo.keys : PInfo → List String
  | PInfo.obj o => o.map Prod.fst
  | _ => []

/-- Outcome of handling the parsed JSON body of an initiate-transaction
response: whether a `PaymentException` is raised to the buyer, the error
text recorded via `order.log_action` (if any), and the value the method
returns (the `NavigateURL`, or nothing). -/
structure InitOutcome where
  raisesPaymentException : Bool
  orderLogError : Option String
  result : Option JVal
deriving DecidableEq, Repr

/-- Embedding of the response handling of `Poli.payment_prepare`
(payment.py lines 445-472): on `Success` the navigate URL is returned;
otherwise the error code and message are recorded in an order action log
entry as `'{error_code}: {error_message}'` and a `PaymentException` is
raised. -/
def payment_prepare_response (data : JObj) : InitOutcome :=
  if (jget data "Success").falsy then
    let error_code := jgetD data "ErrorCode" (JVal.str "Unknown")
    let error_message := jgetD data "ErrorMessage" (JVal.str "Unknown error")
    { raisesPaymentException := true,
      orderLogError := some (pyStr error_code ++ ": " ++ pyStr error_message),
      result := none }
  else
    { raisesPaymentException := false, orderLogError := none,
      result := some (jget data "NavigateURL") }

/-- Embedding of the response handling of `Poli.checkout_prepare`
(payment.py lines 258-275): on `Success` the navigate URL is returned;
otherwise the error is only written to the application log and the
method returns `None` — no `PaymentException`, no order action log
entry (no order exists yet at checkout time). -/
def checkout_prepare_response (data : JObj) : InitOutcome :=
  if (jget data "Success").falsy then
    { raisesPaymentException := false, orderLogError := none, result := none }
  else
    { raisesPaymentException := false, orderLogError := none,
      result := some (jget data "NavigateURL") }

/-- The `PaymentException` messages `execute_payment` can raise after a
failed reconciliation (payment.py lines 352-365). -/
inductive ExecException where
  | paymentFailed : ExecException
  | paymentTimedOut : ExecException
  | unableToProcess : ExecException
deriving DecidableEq, Repr

/-- Embedding of the tail of `Poli.execute_payment` (payment.py lines
344-367), from the point where the transaction data has been fetched:
the raw payload is stored in `payment.info`, `process_transaction_result`
runs, and on a non-success result a `PaymentException` is raised whose
message is chosen by `transaction_data.get('TransactionStatusCode',
'Unknown')`. -/
def execute_payment_core (payment : OrderPayment) (transaction_data : JObj) :
    OrderPayment × Option ExecException :=
  let payment := { payment with info := PInfo.obj transaction_data }
  let r := process_transaction_result payment transaction_data
  if r.2.1 then
    (r.1, none)
  else
    let transaction_status := jgetD transaction_data "TransactionStatusCode" (JVal.str "Unknown")
    if transaction_status = JVal.str "Failed" then
      (r.1, some ExecException.paymentFailed)
    else if transaction_status = JVal.str "Timeout" then
      (r.1, some ExecException.paymentTimedOut)
    else
      (r.1, some ExecException.unableToProcess)

/-- The order statuses of the host framework's `Order` model that the
reminder task inspects (`STATUS_PENDING`, `STATUS_PAID`,
`STATUS_EXPIRED`, `STATUS_CANCELED`). -/
inductive OrderStatus where
  | pending : OrderStatus
  | paid : OrderStatus
  | expired : OrderStatus
  | canceled : OrderStatus
deriving DecidableEq, Repr

/-- A payment row as the reminder task filters it: its provider
identifier and its state. -/
structure TaskPayment where
  provider : String
  state : PaymentState
deriving DecidableEq, Repr

/-- The slice of an order the reminder task reads: status and payments. -/
structure TaskOrder where
  status : OrderStatus
  payments : List TaskPayment
deriving DecidableEq, Repr

/-- Embedding of `send_pending_payment_reminder` (tasks.py lines 38-100).
The argument is the order looked up by code and event id (`none` when
`Order.DoesNotExist`).  The result is whether the task proceeds to send
the reminder email (`order.send_mail`); a `SendMailException` inside the
send is caught and logged, so reaching the send attempt is the observable
outcome modelled here. -/
def send_pending_payment_reminder (order : Option TaskOrder) : Bool :=
  match order with
  | none => false
  | some order =>
    if order.status = OrderStatus.paid then
      false
    else if order.payments.any
        (fun p => p.provider == "poli" && p.state == PaymentState.confirmed) then
      false
    else if order.status = OrderStatus.expired ∨ order.status = OrderStatus.canceled then
      false
    else
      true

example : is_allowed true "NZD" = true ∧ is_allowed true "USD" = false := by decide

example :
    shred_payment_info (PInfo.obj [("TransactionRefNo", JVal.str "T1"), ("Secret", JVal.str "s")])
      = PInfo.obj
        [("TransactionRefNo", JVal.str "T1"), ("TransactionID", JVal.null),
          ("TransactionStatusCode", JVal.null), ("TransactionStatus", JVal.null),
          ("PaymentAmount", JVal.null), ("CurrencyCode", JVal.null),
          ("EstablishedDateTime", JVal.null), ("EndDateTime", JVal.null),
          ("_shredded", JVal.bool true)] := by decide

example :
    send_pending_payment_reminder (some ⟨OrderStatus.paid, []⟩) = false := by decide

example :
    send_pending_payment_reminder (some ⟨OrderStatus.pending, []⟩) = true := by decide

example :
    execute_payment_core ⟨PaymentState.created, PInfo.empty⟩
      [("TransactionStatusCode", JVal.str "ReceiptNotReceived")] =
    (⟨PaymentState.pending,
        PInfo.obj [("TransactionStatusCode", JVal.str "ReceiptNotReceived")]⟩,
      some ExecException.unableToProcess) := by decide

/-- Characterization of `process_transaction_result` on a payload whose
status code is `Completed`: the raw payload is stored, then the payment
is confirmed unless it already was. -/
theorem process_completed (p : OrderPayment) (td : JObj)
    (h : jget td "TransactionStatusCode" = JVal.str "Completed") :
    process_transaction_result p td =
      if p.state = PaymentState.confirmed then
        ({ p with info := PInfo.obj td }, true, [Eff.saveInfo])
      else
        ({ p with state := PaymentState.confirmed, info := PInfo.obj td }, true,
          [Eff.saveInfo, Eff.confirmCalled]) := by
  unfold process_transaction_result
  rw [h]
  by_cases hc : p.state = PaymentState.confirmed <;>
    simp [hc, OrderPayment.confirm, JVal.falsy] <;> decide

/-- Characterization of `process_transaction_result` on a payload whose
status code is `Failed` or `Timeout`: the raw payload is stored, then
the payment is failed unless it is already failed or canceled. -/
theorem process_failed (p : OrderPayment) (td : JObj) (s : String)
    (hs : s = "Failed" ∨ s = "Timeout")
    (h : jget td "TransactionStatusCode" = JVal.str s) :
    process_transaction_result p td =
      if p.state = PaymentState.failed ∨ p.state = PaymentState.canceled then
        ({ p with info := PInfo.obj td }, false, [Eff.saveInfo])
      else
        ({ p with state := PaymentState.failed, info := PInfo.obj td }, false,
          [Eff.saveInfo, Eff.failCalled]) := by
  unfold process_transaction_result
  rw [h]
  rcases hs with rfl | rfl <;>
    by_cases hf : p.state = PaymentState.failed <;>
    by_cases hc : p.state = PaymentState.canceled <;>
    simp [hf, hc, OrderPayment.fail, JVal.falsy] <;> decide

/-- Characterization of `process_transaction_result` on a payload whose
status code is `ReceiptNotReceived`: the raw payload is stored and the
payment state is forced to pending. -/
theorem process_rnr (p : OrderPayment) (td : JObj)
    (h : jget td "TransactionStatusCode" = JVal.str "ReceiptNotReceived") :
    process_transaction_result p td =
      ({ p with state := PaymentState.pending, info := PInfo.obj td }, false,
        [Eff.saveInfo, Eff.savePendingState]) := by
  unfold process_transaction_result
  rw [h]
  simp [JVal.falsy]
  decide

/-- The state after reconciling a `Completed` payload is always
confirmed. -/
theorem process_completed_state (p : OrderPayment) (td : JObj)
    (h : jget td "TransactionStatusCode" = JVal.str "Completed") :
    (process_transaction_result p td).1.state = PaymentState.confirmed := by
  rw [process_completed p td h]
  by_cases hc : p.state = PaymentState.confirmed <;> simp [hc]

/-- The state after reconciling a `Failed` or `Timeout` payload is
canceled when it was canceled, and failed otherwise. -/
theorem process_failed_state (p : OrderPayment) (td : JObj) (s : String)
    (hs : s = "Failed" ∨ s = "Timeout")
    (h : jget td "TransactionStatusCode" = JVal.str s) :
    (process_transaction_result p td).1.state =
      if p.state = PaymentState.canceled then PaymentState.canceled
      else PaymentState.failed := by
  rw [process_failed p td s hs h]
  by_cases hf : p.state = PaymentState.failed <;>
    by_cases hc : p.state = PaymentState.canceled <;>
    simp [hf, hc]

/-- C1: for every payment and every terminal gateway status (`Completed`,
`Failed`, `Timeout`), calling `process_transaction_result` twice in
succession with a payload carrying the same status leaves the payment
state after the second call equal to the state after the first call —
the second reconciliation is a no-op on payment state. -/
theorem C1_terminal_status_idempotent (p : OrderPayment) (td : JObj) (s : String)
    (hs : s = "Completed" ∨ s = "Failed" ∨ s = "Timeout")
    (h : jget td "TransactionStatusCode" = JVal.str s) :
    (process_transaction_result (process_transaction_result p td).1 td).1.state
      = (process_transaction_result p td).1.state := by
  rcases hs with rfl | rfl | rfl
  · rw [process_completed_state _ td h, process_completed_state p td h]
  · rw [process_failed_state _ td "Failed" (Or.inl rfl) h,
      process_failed_state p td "Failed" (Or.inl rfl) h]
    by_cases hc : p.state = PaymentState.canceled <;> simp [hc]
  · rw [process_failed_state _ td "Timeout" (Or.inr rfl) h,
      process_failed_state p td "Timeout" (Or.inr rfl) h]
    by_cases hc : p.state = PaymentState.canceled <;> simp [hc]

/-- Witness for C1 at a concrete input: a created payment reconciled
twice against a `Failed` payload. -/
theorem C1_witness :
    (process_transaction_result
        (process_transaction_result ⟨PaymentState.created, PInfo.empty⟩
          [("TransactionStatusCode", JVal.str "Failed")]).1
        [("TransactionStatusCode", JVal.str "Failed")]).1.state
      = (process_transaction_result ⟨PaymentState.created, PInfo.empty⟩
          [("TransactionStatusCode", JVal.str "Failed")]).1.state :=
  C1_terminal_status_idempotent ⟨PaymentState.created, PInfo.empty⟩
    [("TransactionStatusCode", JVal.str "Failed")] "Failed"
    (Or.inr (Or.inl rfl)) (by decide)

/-- C2: a `Completed` payload confirms the payment from every
non-confirmed state (calling the host `confirm()`); on an already
confirmed payment it leaves the state confirmed and does not call
`confirm()` again. -/
theorem C2_completed_confirms (p : OrderPayment) (td : JObj)
    (h : jget td "TransactionStatusCode" = JVal.str "Completed") :
    (p.state ≠ PaymentState.confirmed →
      (process_transaction_result p td).1.state = PaymentState.confirmed ∧
      Eff.confirmCalled ∈ (process_transaction_result p td).2.2) ∧
    (p.state = PaymentState.confirmed →
      (process_transaction_result p td).1.state = PaymentState.confirmed ∧
      Eff.confirmCalled ∉ (process_transaction_result p td).2.2) := by
  rw [process_completed p td h]
  constructor
  · intro hne
    rw [if_neg hne]
    exact ⟨rfl, by simp⟩
  · intro he
    rw [if_pos he]
    exact ⟨he, by simp⟩

/-- Witness for C2 at a concrete input: a pending payment and a
`Completed` payload. -/
theorem C2_witness :
    (process_transaction_result ⟨PaymentState.pending, PInfo.empty⟩
        [("TransactionStatusCode", JVal.str "Completed")]).1.state
      = PaymentState.confirmed :=
  ((C2_completed_confirms ⟨PaymentState.pending, PInfo.empty⟩
      [("TransactionStatusCode", JVal.str "Completed")] (by decide)).1 (by decide)).1

/-- C3: a `Failed` or `Timeout` payload fails the payment unless it is
already failed or canceled, in which case the payment state is
unchanged. -/
theorem C3_failed_timeout_transitions (p : OrderPayment) (td : JObj) (s : String)
    (hs : s = "Failed" ∨ s = "Timeout")
    (h : jget td "TransactionStatusCode" = JVal.str s) :
    ((p.state ≠ PaymentState.failed ∧ p.state ≠ PaymentState.canceled) →
      (process_transaction_result p td).1.state = PaymentState.failed) ∧
    ((p.state = PaymentState.failed ∨ p.state = PaymentState.canceled) →
      (process_transaction_result p td).1.state = p.state) := by
  rw [process_failed p td s hs h]
  constructor
  · intro hne
    rw [if_neg (by rintro (hf | hc); exacts [hne.1 hf, hne.2 hc])]
  · intro hor
    rw [if_pos hor]

/-- Witness for C3 at a concrete input: a pending payment and a
`Timeout` payload. -/
theorem C3_witness :
    (process_transaction_result ⟨PaymentState.pending, PInfo.empty⟩
        [("TransactionStatusCode", JVal.str "Timeout")]).1.state
      = PaymentState.failed :=
  (C3_failed_timeout_transitions ⟨PaymentState.pending, PInfo.empty⟩
      [("TransactionStatusCode", JVal.str "Timeout")] "Timeout"
      (Or.inr rfl) (by decide)).1 (by decide)

/-- C4: a `ReceiptNotReceived` payload sets the payment state to pending
regardless of the prior state. -/
theorem C4_receipt_not_received_pending (p : OrderPayment) (td : JObj)
    (h : jget td "TransactionStatusCode" = JVal.str "ReceiptNotReceived") :
    (process_transaction_result p td).1.state = PaymentState.pending := by
  rw [process_rnr p td h]

/-- Witness for C4 at a concrete input: a confirmed payment and a
`ReceiptNotReceived` payload. -/
theorem C4_witness :
    (process_transaction_result ⟨PaymentState.confirmed, PInfo.empty⟩
        [("TransactionStatusCode", JVal.str "ReceiptNotReceived")]).1.state
      = PaymentState.pending :=
  C4_receipt_not_received_pending ⟨PaymentState.confirmed, PInfo.empty⟩
    [("TransactionStatusCode", JVal.str "ReceiptNotReceived")] (by decide)

/-- C5 counterexample: on a payload whose `TransactionStatusCode` is
missing, `process_transaction_result` returns early (`if not
transaction_status: return False`) *before* the `payment.info` write, so
the raw payload is not persisted — the payment is left entirely
unchanged, refuting the claim that every invocation (including ones with
a missing status code) writes the payload to `info`. -/
theorem C5_counterexample :
    (process_transaction_result ⟨PaymentState.created, PInfo.empty⟩
        [("TransactionRefNo", JVal.str "T1")]).1.info
      ≠ PInfo.obj [("TransactionRefNo", JVal.str "T1")] ∧
    (process_transaction_result ⟨PaymentState.created, PInfo.empty⟩
        [("TransactionRefNo", JVal.str "T1")]).1
      = ⟨PaymentState.created, PInfo.empty⟩ := by decide

/-- C5 (amended): every invocation of `process_transaction_result` whose
payload carries a present, non-empty `TransactionStatusCode` (unknown
codes included) writes the raw transaction payload to the payment's
`info` field, and does so before any payment-state transition (the
`info` save is the first side effect); when the status code is missing
or empty the function returns false without touching the payment. -/
theorem C5_info_persisted_when_status_present (p : OrderPayment) (td : JObj)
    (h : (jget td "TransactionStatusCode").falsy = false) :
    (process_transaction_result p td).1.info = PInfo.obj td ∧
    ((process_transaction_result p td).2.2).head? = some Eff.saveInfo := by
  unfold process_transaction_result
  simp only [h, Bool.false_eq_true, if_false]
  repeat' split
  all_goals exact ⟨rfl, rfl⟩

/-- Witness for C5 (amended) at a concrete input: an unknown status
code. -/
theorem C5_witness :
    (process_transaction_result ⟨PaymentState.created, PInfo.empty⟩
        [("TransactionStatusCode", JVal.str "SomethingElse")]).1.info
      = PInfo.obj [("TransactionStatusCode", JVal.str "SomethingElse")] :=
  (C5_info_persisted_when_status_present ⟨PaymentState.created, PInfo.empty⟩
      [("TransactionStatusCode", JVal.str "SomethingElse")] (by decide)).1

/-- C6 counterexample: `checkout_prepare` also makes an
initiate-transaction call, and on the response `{Success: false,
ErrorCode: "E1", ErrorMessage: "bad merchant"}` it raises no
`PaymentException` and records no order action log entry — it only logs
to the application log and returns `None` — refuting the claim for
*every* initiate-transaction call. -/
theorem C6_counterexample :
    (checkout_prepare_response
        [("Success", JVal.bool false), ("ErrorCode", JVal.str "E1"),
          ("ErrorMessage", JVal.str "bad merchant")]).raisesPaymentException = false ∧
    (checkout_prepare_response
        [("Success", JVal.bool false), ("ErrorCode", JVal.str "E1"),
          ("ErrorMessage", JVal.str "bad merchant")]).orderLogError = none := by decide

/-- C6 (amended): for an initiate-transaction call made by
`payment_prepare` (paying an existing order) to which the gateway
responds with `Success: false`, `ErrorCode: "E1"`, `ErrorMessage: "bad
merchant"`, a `PaymentException` is raised to the buyer and an order
action log entry with error text `E1: bad merchant` is recorded; the
same response to `checkout_prepare` instead makes it return `None`, with
no exception and no order log entry. -/
theorem C6_payment_prepare_error_logged :
    (payment_prepare_response
        [("Success", JVal.bool false), ("ErrorCode", JVal.str "E1"),
          ("ErrorMessage", JVal.str "bad merchant")]).raisesPaymentException = true ∧
    (payment_prepare_response
        [("Success", JVal.bool false), ("ErrorCode", JVal.str "E1"),
          ("ErrorMessage", JVal.str "bad merchant")]).orderLogError
      = some "E1: bad merchant" ∧
    (checkout_prepare_response
        [("Success", JVal.bool false), ("ErrorCode", JVal.str "E1"),
          ("ErrorMessage", JVal.str "bad merchant")]) =
      { raisesPaymentException := false, orderLogError := none, result := none } := by
  decide

/-- C7: `is_allowed` returns true only when the base provider allows the
payment and the event currency is `NZD` or `AUD`; for any other currency
it returns false. -/
theorem C7_is_allowed_currency_restriction (superAllowed : Bool) (currency : String) :
    (is_allowed superAllowed currency = true →
      superAllowed = true ∧ (currency = "NZD" ∨ currency = "AUD")) ∧
    (currency ≠ "NZD" → currency ≠ "AUD" →
      is_allowed superAllowed currency = false) := by
  constructor
  · intro hI
    unfold is_allowed SUPPORTED_CURRENCIES at hI
    simp at hI
    exact hI
  · intro h1 h2
    unfold is_allowed SUPPORTED_CURRENCIES
    simp [h1, h2]

/-- Witness for C7 at a concrete input: `USD` is refused even when the
base provider allows the payment. -/
theorem C7_witness : is_allowed true "USD" = false :=
  (C7_is_allowed_currency_restriction true "USD").2 (by decide) (by decide)

/-- C8: shredding a payment info blob that parses as a JSON object
replaces it by an object whose keys are exactly the fixed allow-list
plus `_shredded` (mapped to `true`); in particular, on the input
`{"TransactionRefNo":"T1","TransactionID":"X","Secret":"s"}` the key
`Secret` is absent from the result. -/
theorem C8_shred_allowlist :
    (∀ d : JObj,
      (shred_payment_info (PInfo.obj d)).keys = SHRED_KEYS ++ ["_shredded"] ∧
      (match shred_payment_info (PInfo.obj d) with
        | PInfo.obj o => jget o "_shredded" = JVal.bool true
        | _ => False)) ∧
    shred_payment_info
        (PInfo.obj [("TransactionRefNo", JVal.str "T1"), ("TransactionID", JVal.str "X"),
          ("Secret", JVal.str "s")]) =
      PInfo.obj
        [("TransactionRefNo", JVal.str "T1"), ("TransactionID", JVal.str "X"),
          ("TransactionStatusCode", JVal.null), ("TransactionStatus", JVal.null),
          ("PaymentAmount", JVal.null), ("CurrencyCode", JVal.null),
          ("EstablishedDateTime", JVal.null), ("EndDateTime", JVal.null),
          ("_shredded", JVal.bool true)] ∧
    ("Secret" ∈ (shred_payment_info
        (PInfo.obj [("TransactionRefNo", JVal.str "T1"), ("TransactionID", JVal.str "X"),
          ("Secret", JVal.str "s")])).keys) = False := by
  refine ⟨fun d => ⟨rfl, ?_⟩, by decide, by simp [shred_payment_info, PInfo.keys, SHRED_KEYS]⟩
  simp [shred_payment_info, jget, jlookup]

/-- Witness for C8 at a concrete input: the key list of a shredded
object. -/
theorem C8_witness :
    (shred_payment_info (PInfo.obj [("Secret", JVal.str "s")])).keys
      = SHRED_KEYS ++ ["_shredded"] :=
  (C8_shred_allowlist.1 [("Secret", JVal.str "s")]).1

/-- C9: the reminder task proceeds to send an email only when the order
is still unpaid, not expired, not canceled, and has no confirmed POLi
payment; in particular an order that is already paid at fire time gets
no email (the task is a no-op). -/
theorem C9_reminder_only_when_unpaid (o : TaskOrder) :
    (send_pending_payment_reminder (some o) = true →
      o.status ≠ OrderStatus.paid ∧ o.status ≠ OrderStatus.expired ∧
      o.status ≠ OrderStatus.canceled ∧
      ∀ p ∈ o.payments, ¬(p.provider = "poli" ∧ p.state = PaymentState.confirmed)) ∧
    (o.status = OrderStatus.paid → send_pending_payment_reminder (some o) = false) := by
  constructor
  · intro hsent
    simp only [send_pending_payment_reminder] at hsent
    split_ifs at hsent with h1 h2 h3
    push_neg at h3
    refine ⟨h1, h3.1, h3.2, ?_⟩
    intro p hp hcp
    apply h2
    simp only [List.any_eq_true, Bool.and_eq_true, beq_iff_eq]
    exact ⟨p, hp, hcp.1, hcp.2⟩
  · intro hpaid
    simp [send_pending_payment_reminder, hpaid]

/-- Witness for C9 at a concrete input: a paid order gets no reminder
email. -/
theorem C9_witness :
    send_pending_payment_reminder (some ⟨OrderStatus.paid, []⟩) = false :=
  (C9_reminder_only_when_unpaid ⟨OrderStatus.paid, []⟩).2 (by decide)

/-- Link between `jget` and `jlookup`: a non-null `jget` value means the
key is present with that value. -/
theorem jlookup_of_jget_str (td : JObj) (k : String) (s : String)
    (h : jget td k = JVal.str s) : jlookup td k = some (JVal.str s) := by
  unfold jget at h
  cases hl : jlookup td k <;> rw [hl] at h
  · simp at h
  · simpa using h

/-- C10: when the gateway reports `ReceiptNotReceived`,
`execute_payment` first sets the payment state to pending (via
`process_transaction_result`, which returns false for every status other
than a confirmed `Completed`) and then raises the generic
"unable to process your payment" `PaymentException` to the buyer. -/
theorem C10_execute_receipt_not_received (p : OrderPayment) (td : JObj)
    (h : jget td "TransactionStatusCode" = JVal.str "ReceiptNotReceived") :
    (execute_payment_core p td).1.state = PaymentState.pending ∧
    (execute_payment_core p td).2 = some ExecException.unableToProcess ∧
    (process_transaction_result p td).2.1 = false := by
  have hl := jlookup_of_jget_str td "TransactionStatusCode" "ReceiptNotReceived" h
  have hr := process_rnr ⟨p.state, PInfo.obj td⟩ td h
  refine ⟨?_, ?_, ?_⟩
  · simp only [execute_payment_core]
    rw [hr]
    simp [jgetD, hl]
  · simp only [execute_payment_core]
    rw [hr]
    simp [jgetD, hl]
  · rw [process_rnr p td h]

/-- Witness for C10 at a concrete input. -/
theorem C10_witness :
    (execute_payment_core ⟨PaymentState.created, PInfo.empty⟩
        [("TransactionStatusCode", JVal.str "ReceiptNotReceived")]).1.state
      = PaymentState.pending :=
  (C10_execute_receipt_not_received ⟨PaymentState.created, PInfo.empty⟩
      [("TransactionStatusCode", JVal.str "ReceiptNotReceived")] (by decide)).1
